import Mathlib

/-!
Verification of the P4 For Maya plugin (file
Scripting2023_Final_2DAE03_NooyvanderKolff_Cesanne.py) against its
natural-language specification.

The Python source is shallowly embedded: each relevant function is translated
into an executable Lean definition, with the host APIs (Maya, P4Python)
represented by explicit oracle inputs describing the outcome of each external
call (whether a given Perforce command succeeds or raises P4Exception, the
bounding boxes Maya reports, and so on).  Python dictionaries become functions
into Option, Python lists become Lean lists, and operations that can raise
become Except-valued functions.
-/

/-- Python values as they occur in this script's lists and preference
dictionaries: ints, strings and booleans.  (The source stores strings such as
the server port, the int-valued check state, and boolean option flags.) -/
inductive PyVal where
  | int (n : Int)
  | str (s : String)
  | bool (b : Bool)
deriving DecidableEq, Repr

/-- Python equality (the == used by list.remove): ints and strings never
compare equal, and a Python bool equals the int of the same numeric value
(True == 1, False == 0). -/
def pyEq : PyVal → PyVal → Bool
  | PyVal.int a, PyVal.int b => a == b
  | PyVal.str a, PyVal.str b => a == b
  | PyVal.bool a, PyVal.bool b => a == b
  | PyVal.bool a, PyVal.int b => (if a then (1 : Int) else 0) == b
  | PyVal.int a, PyVal.bool b => a == (if b then (1 : Int) else 0)
  | _, _ => false

/-- Python list.remove(v): removes the first element equal to v, and raises
ValueError when no element equals v.  The error case is Except.error. -/
def pyListRemove (xs : List PyVal) (v : PyVal) : Except Unit (List PyVal) :=
  match xs with
  | [] => Except.error ()
  | x :: rest =>
      if pyEq x v then Except.ok rest
      else (pyListRemove rest v).map (fun ys => x :: ys)

/-- The MessageType enum of the source (LOG = 0, WARNING = 1, ERROR = 2). -/
inductive MessageType where
  | LOG
  | WARNING
  | ERROR
deriving DecidableEq, Repr

/-- Connector.log_connection (source lines 338-348): inserts the new message
at index 0 and, when the list then holds more than 50 entries, calls
self.log.remove(0) intending to drop the oldest entry.  remove(0) removes
the first element EQUAL to the int 0; the log holds only strings, so the call
raises ValueError, which this embedding returns as Except.error together with
the already-mutated list (the insert at index 0 has happened by then). -/
def log_connection (log : List PyVal) (log_message : String) :
    Except (List PyVal) (List PyVal) :=
  let log1 := PyVal.str (">> " ++ log_message) :: log
  if log1.length > 50 then
    match pyListRemove log1 (PyVal.int 0) with
    | Except.ok ys => Except.ok ys
    | Except.error _ => Except.error log1
  else
    Except.ok log1

/-- P4Bar.update_log (source lines 1497-1507, name mangled __update_log):
appends the new message at the end and, when the list then holds more than 50
entries, calls self.log.remove(0), with the same ValueError outcome as in
log_connection since the log holds only strings. -/
def update_log (log : List PyVal) (log_message : String) (msg_type : MessageType) :
    Except (List PyVal) (List PyVal) :=
  let tag := match msg_type with
    | MessageType.LOG => "LOG"
    | MessageType.WARNING => "WARNING"
    | MessageType.ERROR => "ERROR"
  let log1 := log ++ [PyVal.str (">> [" ++ tag ++ "] " ++ log_message)]
  if log1.length > 50 then
    match pyListRemove log1 (PyVal.int 0) with
    | Except.ok ys => Except.ok ys
    | Except.error _ => Except.error log1
  else
    Except.ok log1

/-- PreferenceHandler (source lines 1683-1717): a dictionary keyed by class
name whose values are dictionaries keyed by variable name.  Embedded as
nested partial maps. -/
structure PreferenceHandler where
  preferences : String → Option (String → Option PyVal)

/-- A PreferenceHandler whose preference dictionary is empty (the state after
init when no preference file exists). -/
def emptyPrefHandler : PreferenceHandler :=
  { preferences := fun _ => none }

/-- PreferenceHandler.get_pref (source lines 1698-1706):
self.preferences.get(class_key, their empty dict).get(var_key, None). -/
def get_pref (h : PreferenceHandler) (class_key var_key : String) : Option PyVal :=
  match h.preferences class_key with
  | none => none
  | some class_prefs => class_prefs var_key

/-- PreferenceHandler.set_pref (source lines 1708-1717): fetches the class
dictionary (or an empty one), stores the value under var_key, and puts the
class dictionary back under class_key. -/
def set_pref (h : PreferenceHandler) (class_key var_key : String) (value : PyVal) :
    PreferenceHandler :=
  let class_prefs := match h.preferences class_key with
    | none => fun _ => none
    | some d => d
  let class_prefs1 := fun k => if k == var_key then some value else class_prefs k
  { preferences := fun c => if c == class_key then some class_prefs1 else h.preferences c }

/-- The options dictionary of the CustomSave module: a partial map from
option names to Python values. -/
def SaveOptions : Type := String → Option PyVal

/-- The default options installed by CustomSave.init (source lines 862-877). -/
def defaultOptionEntries : List (String × PyVal) :=
  [("outside_p4", PyVal.bool false),
   ("check_naming", PyVal.bool true),
   ("naming_approach", PyVal.int 0),
   ("naming_convention_prefix", PyVal.str ""),
   ("naming_convention_suffix", PyVal.str ""),
   ("naming_convention_regex", PyVal.str ".*"),
   ("check_directory", PyVal.bool false),
   ("directory", PyVal.str ""),
   ("non_manifold", PyVal.bool false),
   ("ngons", PyVal.bool false),
   ("concave", PyVal.bool false),
   ("frozen_transform", PyVal.bool false),
   ("centered", PyVal.bool false)]

/-- Python dict lookup in an association list (last binding wins, matching
dict.update building the dict left to right; the default entries have
distinct keys so the order is immaterial here). -/
def assocLookup (entries : List (String × PyVal)) (k : String) : Option PyVal :=
  match entries with
  | [] => none
  | (k1, v) :: rest =>
      match assocLookup rest k with
      | some w => some w
      | none => if k == k1 then some v else none

/-- The options dictionary right after self.options.update(default entries)
in CustomSave.init (source lines 862-877). -/
def initOptions : SaveOptions := fun k => assocLookup defaultOptionEntries k

/-- Python dict.update(other) on the embedded maps: keys present in other
overwrite, all other keys keep their previous value. -/
def dictUpdate (d other : SaveOptions) : SaveOptions :=
  fun k => match other k with
    | some v => some v
    | none => d k

/-- CustomSave.load_pref (source lines 889-896, name mangled __load_pref),
restricted to the options dictionary: updates self.options with whatever
options dictionary was stored in the preferences (an arbitrary map here). -/
def load_pref_options (opts stored : SaveOptions) : SaveOptions :=
  dictUpdate opts stored

/-- CustomSave.set_variable (source lines 911-918, name mangled
__set_variable): self.options.update(with var set to value). -/
def set_variable (opts : SaveOptions) (var : String) (value : PyVal) : SaveOptions :=
  fun k => if k == var then some value else opts k

/-- The invariant of claim C9: every default option key is present. -/
def hasDefaultKeys (opts : SaveOptions) : Prop :=
  ∀ kv ∈ defaultOptionEntries, (opts kv.1).isSome = true

/-- Decidability of hasDefaultKeys, so witnesses can evaluate it. -/
instance (opts : SaveOptions) : Decidable (hasDefaultKeys opts) := by
  unfold hasDefaultKeys
  infer_instance

/-- The CustomSave.CheckType enum of the source (ERROR = 0, WARNING = 1,
NONE = 2), selecting what to do with failing checks. -/
inductive CheckType where
  | ERROR
  | WARNING
  | NONE
deriving DecidableEq, Repr

/-- CheckType(option) as used by CustomSave.set_state (source lines 898-904):
the enum member with the given value. -/
def checkTypeOfValue (option : Nat) : Option CheckType :=
  match option with
  | 0 => some CheckType.ERROR
  | 1 => some CheckType.WARNING
  | 2 => some CheckType.NONE
  | _ => none

/-- Session events of the P4 connection held in P4MayaControl.p4:
a successful p4.connect() and a p4.disconnect(). -/
inductive SessEvt where
  | conn
  | disc
deriving DecidableEq, Repr

/-- Whether the session is open after one event. -/
def sessStep (_b : Bool) (e : SessEvt) : Bool :=
  match e with
  | SessEvt.conn => true
  | SessEvt.disc => false

/-- Whether the session is open after a trace of events, starting from b. -/
def sessRun (b : Bool) (tr : List SessEvt) : Bool :=
  tr.foldl sessStep b

/-- True when the trace never opens a session while one is already open. -/
def noNestedConn (b : Bool) (tr : List SessEvt) : Bool :=
  match tr with
  | [] => true
  | SessEvt.conn :: rest => !b && noNestedConn true rest
  | SessEvt.disc :: rest => noNestedConn false rest

/-- The session events of P4MayaControl.p4_connect (source lines 1637-1655):
p4.connect() opens the session when it succeeds (connOk); then
p4.run("login", "-s") runs, and if it raises (loginOk = false) the except
branch calls p4_release, closing the session again.  When connect itself
raises, no session was opened and p4_release finds it closed. -/
def p4ConnectTrace (connOk loginOk : Bool) : List SessEvt :=
  if connOk then
    (if loginOk then [SessEvt.conn] else [SessEvt.conn, SessEvt.disc])
  else []

/-- Whether the session is open after P4MayaControl.p4_connect returns or
raises: only when both p4.connect() and the login check succeeded. -/
def p4ConnectOpen (connOk loginOk : Bool) : Bool :=
  connOk && loginOk

/-- Whether P4MayaControl.p4_connect(handle_error) lets the P4Exception
escape to its caller: only when handle_error is False (source line 1655). -/
def p4ConnectRaises (handle_error connOk loginOk : Bool) : Bool :=
  !handle_error && !(connOk && loginOk)

/-- The session events of P4MayaControl.p4_release (source lines 1657-1666):
disconnects only when p4.connected() reports an open session. -/
def p4ReleaseTrace (isOpen : Bool) : List SessEvt :=
  if isOpen then [SessEvt.disc] else []

/-- Python-level exceptions that escape the tool's callbacks (they are not
P4Exceptions, so no except block in this script catches them). -/
inductive PyError where
  /-- list.remove(0) found no element equal to the int 0 (the log-overflow
  bug of the two log functions). -/
  | valueError
  /-- str + list in P4Bar.update_log (source line 1503), reached when
  send_to_log is handed the un-joined inst.errors list. -/
  | typeError
  /-- None.log_connection in p4_connect's except branch (source line 1653):
  P4MayaControl.connect is assigned None at line 1535 and never reassigned. -/
  | attributeError
deriving DecidableEq, Repr

/-- The name of a MessageType member, as interpolated by update_log. -/
def msgTag : MessageType → String
  | MessageType.LOG => "LOG"
  | MessageType.WARNING => "WARNING"
  | MessageType.ERROR => "ERROR"

/-- The entry string update_log appends for a message of the given type. -/
def logEntry (msg_type : MessageType) (log_message : String) : PyVal :=
  PyVal.str (">> [" ++ msgTag msg_type ++ "] " ++ log_message)

/-- The loop over failed-check warnings in intercept_save (source lines
1196-1197): each send_to_log call appends to the bar log via update_log;
the first overflow raises ValueError (carried here as Except.error with the
mutated list) and the remaining warnings are never sent. -/
def send_warnings (log : List PyVal) (ws : List String) (sev : MessageType) :
    Except (List PyVal) (List PyVal) :=
  match ws with
  | [] => Except.ok log
  | w :: rest =>
      match update_log log w sev with
      | Except.ok l2 => send_warnings l2 rest sev
      | Except.error l2 => Except.error l2

/-- Whether an Except value is the error case. -/
def exceptFailed {ε α : Type} : Except ε α → Bool
  | Except.error _ => true
  | Except.ok _ => false

/-- The carried value of an Except whose two sides have the same type (the
log functions carry the mutated list on both sides). -/
def exceptList {α : Type} : Except α α → α
  | Except.ok a => a
  | Except.error a => a

/-- Oracle for one triggered save, giving the outcome of every external call
CustomSave.intercept_save makes (source lines 1163-1235), plus the bar log
the P4Bar holds when the save fires (its length decides whether log writes
raise ValueError). -/
structure SaveEnv where
  /-- handler.is_connected() at the time of the save. -/
  connected : Bool
  /-- The option "outside_p4" (check even when saved outside P4). -/
  outsideP4 : Bool
  /-- self.state, the CheckType of the module. -/
  state : CheckType
  /-- Whether check_open_file reports all convention checks passed. -/
  checksPassed : Bool
  /-- The warning messages check_open_file returns alongside the flag. -/
  warnings : List String
  /-- Whether p4.connect() inside p4_connect succeeds. -/
  connOk : Bool
  /-- Whether p4.run("login", "-s") inside p4_connect succeeds. -/
  loginOk : Bool
  /-- Whether p4.run("where", dirname) would succeed on an open session,
  i.e. the directory maps into the workspace. -/
  whereOk : Bool
  /-- Whether p4.run("files", file) would succeed on an open session,
  i.e. the file already exists in the depot. -/
  filesOk : Bool
  /-- Whether p4.run("add", file) raises P4Exception. -/
  addRaises : Bool
  /-- Whether p4.run("edit", file) raises P4Exception. -/
  editRaises : Bool
  /-- The P4Bar log list when the save fires. -/
  barLog : List PyVal

/-- Whether the session on P4MayaControl.p4 is open once p4_connect has run
(source line 1180): only when both p4.connect() and the login check
succeeded.  (On failure p4_connect's own except branch releases the session
before crashing in its handler, so the session is closed either way.) -/
def sessionOpenAfterConnect (env : SaveEnv) : Bool :=
  p4ConnectOpen env.connOk env.loginOk

/-- Whether the p4_connect() call at source line 1180 aborts the whole
callback.  p4_connect is called with handle_error defaulting to True, so on
a connect or login failure its except branch runs: it releases the session,
sends the error text to the bar log (which itself raises ValueError when
the bar log overflows), and then evaluates self.connect.log_connection -
an AttributeError, since that field is assigned None at source line 1535
and never reassigned.  Neither error is a P4Exception, so the callback
aborts without writing ret_code. -/
def p4ConnectAborts (env : SaveEnv) : Bool :=
  !(env.connOk && env.loginOk)

/-- The error text p4_connect's handler sends to the bar log before the
AttributeError (source lines 1649-1652); kept abstract. -/
def p4ConnectErrorText : String := "P4 connection error"

/-- Which Python error aborts the callback when p4_connect fails: the
ValueError of the overflowing bar-log append at source line 1652 when the
bar log is full, the AttributeError of source line 1653 otherwise. -/
def p4ConnectAbortError (env : SaveEnv) : PyError :=
  match update_log env.barLog p4ConnectErrorText MessageType.ERROR with
  | Except.error _ => PyError.valueError
  | Except.ok _ => PyError.attributeError

/-- CustomSave.p4_exists (source lines 1135-1147): p4.run("files", path)
inside try, returning False when P4Exception is raised.  Running on a closed
session raises, so the result is the conjunction below. -/
def p4_exists (sessionOpen filesOk : Bool) : Bool :=
  sessionOpen && filesOk

/-- CustomSave.p4_in_workspace (source lines 1149-1161): p4.run("where",
path) inside try, returning False when P4Exception is raised.  Running on a
closed session raises, so the result is the conjunction below. -/
def p4_in_workspace (sessionOpen whereOk : Bool) : Bool :=
  sessionOpen && whereOk

/-- The value p4_in_workspace returns for the saved file's directory during
intercept_save (called at source lines 1187 and 1211 with the same
directory and the same session, hence the same result). -/
def inWorkspaceRes (env : SaveEnv) : Bool :=
  p4_in_workspace (sessionOpenAfterConnect env) env.whereOk

/-- The value p4_exists returns for the saved file during intercept_save
(source line 1212). -/
def p4ExistsRes (env : SaveEnv) : Bool :=
  p4_exists (sessionOpenAfterConnect env) env.filesOk

/-- The local variable check of intercept_save (source lines 1183-1187):
True unless the option "outside_p4" is unset and the directory is not in the
workspace. -/
def checkVar (env : SaveEnv) : Bool :=
  if env.outsideP4 then true else inWorkspaceRes env

/-- Whether the checks gate of intercept_save holds (source line 1190):
check holds and the state is not CheckType.NONE.  (check_open_file actually
runs only when p4_connect did not abort first.) -/
def checksExecuted (env : SaveEnv) : Bool :=
  checkVar env && !(env.state == CheckType.NONE)

/-- The severity used for failed-check log messages (source line 1191):
ERROR when the state is CheckType.ERROR, WARNING otherwise. -/
def checkSeverity (state : CheckType) : MessageType :=
  if state == CheckType.ERROR then MessageType.ERROR else MessageType.WARNING

/-- Whether intercept_save reaches the failed-check warning loop (source
lines 1195-1197): p4_connect did not abort, the checks ran and they
failed. -/
def checksFailedHere (env : SaveEnv) : Bool :=
  !(p4ConnectAborts env) && checksExecuted env && !env.checksPassed

/-- The outcome of the failed-check warning loop on the bar log. -/
def warnSendResult (env : SaveEnv) : Except (List PyVal) (List PyVal) :=
  send_warnings env.barLog env.warnings (checkSeverity env.state)

/-- Whether the warning loop aborts the callback with the log-overflow
ValueError before the early-cancel test and the add-or-edit step. -/
def warnSendAborts (env : SaveEnv) : Bool :=
  checksFailedHere env && exceptFailed (warnSendResult env)

/-- Whether intercept_save takes the early-cancel branch and writes False
into ret_code (source lines 1199-1206): the checks failed, all warnings
were logged without overflow, and the state is CheckType.ERROR. -/
def saveDenied (env : SaveEnv) : Bool :=
  checksFailedHere env && !(exceptFailed (warnSendResult env)) &&
    (env.state == CheckType.ERROR)

/-- Whether intercept_save reaches p4.run("add", file) (source line 1213):
no earlier abort or cancel, the directory is in the workspace and the files
query raised. -/
def addAttempted (env : SaveEnv) : Bool :=
  !(p4ConnectAborts env) && !(warnSendAborts env) && !(saveDenied env) &&
    inWorkspaceRes env && !(p4ExistsRes env)

/-- Whether intercept_save reaches p4.run("edit", file) (source line 1215). -/
def editAttempted (env : SaveEnv) : Bool :=
  !(p4ConnectAborts env) && !(warnSendAborts env) && !(saveDenied env) &&
    inWorkspaceRes env && p4ExistsRes env

/-- Whether a P4Exception escapes from the add / edit command into the
except branch of intercept_save (source lines 1213, 1215, 1217); the
branch then crashes with TypeError before continue_save = False (see
intercept_save). -/
def saveP4Raised (env : SaveEnv) : Bool :=
  (addAttempted env && env.addRaises) || (editAttempted env && env.editRaises)

/-- The observable outcome of one run of CustomSave.intercept_save. -/
structure SaveOutcome where
  /-- How the callback ends: Except.ok b when it writes the boolean b into
  ret_code (True lets the save proceed), Except.error e when a Python-level
  error aborts it and ret_code is never written. -/
  result : Except PyError Bool
  /-- Whether the convention checks were executed (check_open_file called). -/
  checksRan : Bool
  /-- Whether p4.run("add", file) was issued. -/
  ranAdd : Bool
  /-- Whether p4.run("edit", file) was issued. -/
  ranEdit : Bool
  /-- The P4Bar log list after the run (log writes mutate it even when the
  write then raises). -/
  barLog : List PyVal
  /-- The session events on P4MayaControl.p4 during the run. -/
  sessTrace : List SessEvt
deriving Repr

/-- CustomSave.intercept_save (source lines 1163-1235, name mangled
__intercept_save).  When the handler is not connected nothing runs and the
save proceeds.  Otherwise p4_connect runs; on its failure the callback
aborts (AttributeError, or ValueError when the bar-log append of the error
text overflows) with the session released.  Then the convention checks run
as gated by checkVar and the state; failed checks are sent to the bar log
one by one, and an overflowing append aborts the callback (ValueError)
before anything else.  A failing check under CheckType.ERROR then cancels
the save (ret_code False).  Otherwise the file is added or checked out when
its directory is in the workspace; if the command raises P4Exception, the
except branch evaluates send_to_log(inst.errors, ERROR) - a TypeError,
since inst.errors is a list and update_log concatenates it to a str - so
the callback aborts before continue_save = False and ret_code keeps no
written value.  The finally block always releases the session. -/
def intercept_save (env : SaveEnv) : SaveOutcome :=
  if env.connected then
    let strace := p4ConnectTrace env.connOk env.loginOk ++
      p4ReleaseTrace (sessionOpenAfterConnect env)
    if p4ConnectAborts env then
      match update_log env.barLog p4ConnectErrorText MessageType.ERROR with
      | Except.error l =>
          { result := Except.error PyError.valueError, checksRan := false,
            ranAdd := false, ranEdit := false, barLog := l, sessTrace := strace }
      | Except.ok l =>
          { result := Except.error PyError.attributeError, checksRan := false,
            ranAdd := false, ranEdit := false, barLog := l, sessTrace := strace }
    else
      if checksExecuted env && !env.checksPassed then
        match send_warnings env.barLog env.warnings (checkSeverity env.state) with
        | Except.error l =>
            { result := Except.error PyError.valueError, checksRan := true,
              ranAdd := false, ranEdit := false, barLog := l, sessTrace := strace }
        | Except.ok l =>
            if env.state == CheckType.ERROR then
              { result := Except.ok false, checksRan := true,
                ranAdd := false, ranEdit := false, barLog := l, sessTrace := strace }
            else
              { result := if saveP4Raised env then Except.error PyError.typeError
                  else Except.ok true
                checksRan := true
                ranAdd := addAttempted env
                ranEdit := editAttempted env
                barLog := l
                sessTrace := strace }
      else
        { result := if saveP4Raised env then Except.error PyError.typeError
            else Except.ok true
          checksRan := checksExecuted env
          ranAdd := addAttempted env
          ranEdit := editAttempted env
          barLog := env.barLog
          sessTrace := strace }
  else
    { result := Except.ok true, checksRan := false, ranAdd := false,
      ranEdit := false, barLog := env.barLog, sessTrace := [] }

/-- The session events of Connector.check_connection (source lines 226-256,
name mangled __check_connection): nothing when not connected or the
10-second interval has not passed; otherwise p4_connect(False) (which may
raise out), then a second p4.run("login", "-s"), with the except branch
releasing via set_p4 / change_connection and the finally block releasing
again (both no-ops once closed). -/
def opCheckConnectionTrace (connected elapsed connOk loginOk1 _loginOk2 : Bool) :
    List SessEvt :=
  if connected && elapsed then
    p4ConnectTrace connOk loginOk1 ++
      (if p4ConnectOpen connOk loginOk1 then
        -- With the session open, either the login check succeeds and the
        -- finally block releases, or it raises and the except branch
        -- releases first (the finally block then finds the session closed):
        -- exactly one disconnect either way, so loginOk2 does not change
        -- the trace.
        p4ReleaseTrace true
      else [])
  else []

/-- The session events of CustomSave.intercept_save (source lines
1163-1235): p4_connect with swallowed errors, then (on the early-cancel
path) a release followed by the finally-block release, or (on every other
path) the finally-block release alone. -/
def opInterceptSaveTrace (connected connOk loginOk : Bool) : List SessEvt :=
  if connected then
    p4ConnectTrace connOk loginOk ++ p4ReleaseTrace (p4ConnectOpen connOk loginOk)
  else []

/-- The session events of Connector.connect (source lines 258-328, name
mangled __connect), which uses a local P4 object: p4.connect() opens the
session when it succeeds, the runs may raise, and the finally block
disconnects. -/
def opConnectorConnectTrace (connOk : Bool) : List SessEvt :=
  (if connOk then [SessEvt.conn] else []) ++ p4ReleaseTrace connOk

/-- The session events of Connector.get_default_values and
Connector.refresh_workspaces (source lines 457-470 and 485-498), which use a
local P4 object with try / except / finally p4.disconnect(). -/
def opListWorkspacesTrace (connOk : Bool) : List SessEvt :=
  (if connOk then [SessEvt.conn] else []) ++ p4ReleaseTrace connOk

/-- The session events of the changelist and file-history fetches
(Submit.get_changelist, source lines 618-661, and Rollback.get_history,
source lines 712-752): nothing when not connected, otherwise p4_connect with
swallowed errors, runs that may raise and are caught, and the finally block
releasing. -/
def opModuleFetchTrace (connected connOk loginOk : Bool) : List SessEvt :=
  if connected then
    p4ConnectTrace connOk loginOk ++ p4ReleaseTrace (p4ConnectOpen connOk loginOk)
  else []

/-- The Connector state relevant to the periodic connection check: the
handler's connected flag, the time the connection was last checked
(self.last_checked, as a natural-number timestamp in seconds), the
Connector's own connection log and the P4Bar's message log (both Python
lists of strings, kept as PyVal lists so the log functions' overflow
behaviour applies). -/
structure ConnState where
  connected : Bool
  lastChecked : Nat
  connectionLog : List PyVal
  barLog : List PyVal

/-- The warning text logged when the periodic connection check fails and the
P4Exception carries no error strings (source line 248). -/
def connectionLostText : String :=
  "Something went wrong. P4 connection broken. Please, check your network connection."

/-- The log writes of the except branch of Connector.check_connection
(source lines 252-253): first log_connection inserts the warning into the
connection log - when that raises the overflow ValueError (after its
insert), send_to_log is never reached and the bar log is untouched;
otherwise update_log appends the warning to the bar log (its own overflow
also appends before raising).  Returns the two logs after the branch. -/
def check_connection_logs (cl bl : List PyVal) : List PyVal × List PyVal :=
  match log_connection cl connectionLostText with
  | Except.error l => (l, bl)
  | Except.ok l =>
      (l, exceptList (update_log bl connectionLostText MessageType.WARNING))

/-- Connector.check_connection (source lines 226-256, name mangled
__check_connection), fired on every Maya idle event.  Runs only while the
handler reports connected and more than 10 seconds have passed since
last_checked; it then stamps last_checked with the current time and
re-validates the session (p4_connect(False) plus a login check, whose
combined failure is the oracle bit loginFails); on failure the connected
flag is dropped via set_p4(False, True) before any logging, then the
warning is written to the connection log and - when that write did not
raise - to the bar log.  A raising log write propagates out of the script
job, but every state change made before it persists.  Returns the new
state and whether the re-validation ran. -/
def check_connection (s : ConnState) (now : Nat) (loginFails : Bool) :
    ConnState × Bool :=
  if s.connected && decide (10 < now - s.lastChecked) then
    if loginFails then
      let logs := check_connection_logs s.connectionLog s.barLog
      ({ connected := false, lastChecked := now,
         connectionLog := logs.1, barLog := logs.2 }, true)
    else ({ s with lastChecked := now }, true)
  else (s, false)

/-- Folds a list of idle firings (each a time plus the oracle bit saying
whether the re-validation would fail then) through check_connection,
returning the final state and the times at which the re-validation
actually ran. -/
def runIdleFirings (s : ConnState) (firings : List (Nat × Bool)) :
    ConnState × List Nat :=
  match firings with
  | [] => (s, [])
  | (t, r) :: rest =>
      let step := check_connection s t r
      let tail := runIdleFirings step.1 rest
      (tail.1, if step.2 then t :: tail.2 else tail.2)

/-- A world bounding box as returned by cmds.exactWorldBoundingBox:
the six values xmin, ymin, zmin, xmax, ymax, zmax.  The source compares them
with the literals 1 and -1; rationals embed those comparisons exactly. -/
structure BBox where
  xmin : ℚ
  ymin : ℚ
  zmin : ℚ
  xmax : ℚ
  ymax : ℚ
  zmax : ℚ
deriving DecidableEq, Repr

/-- The per-mesh test of the centered section of CustomSave.check_geometry
(source lines 1344-1349): each axis passes when the minimum is below 1 and
the maximum is above -1. -/
def zeroCentered (b : BBox) : Bool :=
  (decide (b.xmin < 1) && decide (-1 < b.xmax)) &&
  (decide (b.ymin < 1) && decide (-1 < b.ymax)) &&
  (decide (b.zmin < 1) && decide (-1 < b.zmax))

/-- The warning text appended per failing mesh (source line 1351). -/
def notCenteredText : String := "The meshes are not positioned around (0, 0, 0)."

/-- The centered section of CustomSave.check_geometry (source lines
1340-1351): iterates over the bounding boxes of all mesh objects, and for
every mesh failing zeroCentered sets success to False and appends the
warning.  Takes the incoming success flag and warning list accumulated by
the earlier geometry sections. -/
def check_centered (success : Bool) (warning : List String) (boxes : List BBox) :
    Bool × List String :=
  match boxes with
  | [] => (success, warning)
  | b :: rest =>
      if zeroCentered b then check_centered success warning rest
      else check_centered false (warning ++ [notCenteredText]) rest

/-- The property the spec's words describe for claim C6, written from the
claim and not from the source: the mesh's world bounding box contains the
scene center (0, 0, 0). -/
def containsCenter (b : BBox) : Prop :=
  (b.xmin ≤ 0 ∧ 0 ≤ b.xmax) ∧ (b.ymin ≤ 0 ∧ 0 ≤ b.ymax) ∧ (b.zmin ≤ 0 ∧ 0 ≤ b.zmax)

/-- Decidability of containsCenter, so witnesses can evaluate it. -/
instance (b : BBox) : Decidable (containsCenter b) := by
  unfold containsCenter
  infer_instance

/-- Tokens of the regular-expression fragment this script builds: literal
characters (what re.escape produces) and the dot-star wildcard.  A compiled
user regex is kept abstractly as a token list of this fragment. -/
inductive RTok where
  | lit (c : Char)
  | dotStar
deriving DecidableEq, Repr

/-- The token list of an escaped literal string (re.escape makes every
character match itself). -/
def lits (s : List Char) : List RTok :=
  s.map RTok.lit

/-- Python re.match semantics for the fragment: does the pattern match some
initial segment of the input (anchored at the start, not at the end)?  A
literal consumes one equal character; dot-star consumes any amount of input,
rendered here as matching the rest of the pattern against some suffix. -/
def rmatchFrom : List RTok → List Char → Bool
  | [], _ => true
  | RTok.lit c :: ts, s =>
      match s with
      | [] => false
      | x :: xs => x == c && rmatchFrom ts xs
  | RTok.dotStar :: ts, s => s.tails.any (fun s2 => rmatchFrom ts s2)

/-- os.path.basename for the slash-separated paths this script handles: the
part of the path after the last separator (everything when there is none). -/
def basename (p : List Char) : List Char :=
  p.foldl (fun acc c => if c == '/' then [] else acc ++ [c]) []

/-- os.path.splitext applied to a base name (no separators), following the
posixpath algorithm: splits at the last dot, except that a name whose part
before that dot is entirely dots (such as dotfiles) is not split. -/
def splitext (name : List Char) : List Char × List Char :=
  let dotIdxs := (List.range name.length).filter (fun i => name.get? i == some '.')
  match dotIdxs.getLast? with
  | none => (name, [])
  | some d =>
      if (name.take d).all (fun c => c == '.') then (name, [])
      else (name.take d, name.drop d)

/-- The naming-convention options of the CustomSave module, as read from the
options dictionary by check_path: whether to check at all, the approach
(0 = simple prefix / suffix, 1 = regex), the prefix and suffix strings of
the simple approach, and the compiled user regex of the regex approach
(kept as a token list of the embedded fragment). -/
structure NamingOpts where
  check_naming : Bool
  naming_approach : Nat
  pfxChars : List Char
  sfxChars : List Char
  regexToks : List RTok

/-- The pattern check_path builds (source lines 1267-1271): the user's regex
under the regex approach, and re.escape(the prefix) + dot-star +
re.escape(the suffix) under the simple approach. -/
def namingPattern (o : NamingOpts) : List RTok :=
  if o.naming_approach == 1 then o.regexToks
  else lits o.pfxChars ++ [RTok.dotStar] ++ lits o.sfxChars

/-- The warning text appended when the naming convention fails (source lines
1276-1277). -/
def namingFailText : String := "The naming convention is not being respected."

/-- The naming section of CustomSave.check_path (source lines 1265-1278):
when check_naming is set, the base name of the path - with its extension and
with the extension stripped - is matched against the pattern with re.match;
the check fails only when neither variant matches. -/
def check_naming (o : NamingOpts) (path : List Char) : Bool × List String :=
  if o.check_naming then
    let filename := basename path
    let pure_filename := (splitext filename).1
    if !(rmatchFrom (namingPattern o) filename) &&
       !(rmatchFrom (namingPattern o) pure_filename) then
      (false, [namingFailText])
    else (true, [])
  else (true, [])

/-- A concrete save environment: connected, default options, Error mode,
failing checks, directory in the workspace, file not yet in the depot. -/
def envErrorFail : SaveEnv :=
  { connected := true, outsideP4 := false, state := CheckType.ERROR,
    checksPassed := false, warnings := ["The naming convention is not being respected."],
    connOk := true, loginOk := true, whereOk := true, filesOk := false,
    addRaises := false, editRaises := false, barLog := [] }

/-- A concrete save environment: connected, checks disabled (state NONE),
directory in the workspace, file not yet in the depot. -/
def envNoneAdd : SaveEnv :=
  { connected := true, outsideP4 := false, state := CheckType.NONE,
    checksPassed := true, warnings := [],
    connOk := true, loginOk := true, whereOk := true, filesOk := false,
    addRaises := false, editRaises := false, barLog := [] }

/-- A concrete save environment: connected, Warning mode with failing
checks, directory in the workspace, file already in the depot. -/
def envWarningEdit : SaveEnv :=
  { connected := true, outsideP4 := false, state := CheckType.WARNING,
    checksPassed := false, warnings := ["w1", "w2"],
    connOk := true, loginOk := true, whereOk := true, filesOk := true,
    addRaises := false, editRaises := false, barLog := [] }

/-- A concrete save environment: connected, checks disabled, file already
in the depot, and the edit command raising P4Exception (for instance the
file is exclusively locked by someone else); the bar log is empty. -/
def envEditRaises : SaveEnv :=
  { connected := true, outsideP4 := false, state := CheckType.NONE,
    checksPassed := true, warnings := [],
    connOk := true, loginOk := true, whereOk := true, filesOk := true,
    addRaises := false, editRaises := true, barLog := [] }

/-- A concrete save environment: connected but p4.connect() fails (for
instance the server is unreachable); the bar log is empty. -/
def envConnectFail : SaveEnv :=
  { connected := true, outsideP4 := false, state := CheckType.ERROR,
    checksPassed := true, warnings := [],
    connOk := false, loginOk := true, whereOk := false, filesOk := false,
    addRaises := false, editRaises := false, barLog := [] }

/-- A concrete save environment: connected, Warning mode with one failing
check, everything on the Perforce side fine, but the bar log already full
with 50 entries, so the warning append overflows. -/
def envWarnOverflow : SaveEnv :=
  { connected := true, outsideP4 := false, state := CheckType.WARNING,
    checksPassed := false, warnings := ["w"],
    connOk := true, loginOk := true, whereOk := true, filesOk := true,
    addRaises := false, editRaises := false,
    barLog := List.replicate 50 (PyVal.str ">> m") }

/-- The bounding box of a mesh sitting strictly between the scene center and
the tolerance band: from (1/2, 1/2, 1/2) to (9/10, 9/10, 9/10). -/
def boxOffCenter : BBox :=
  { xmin := 1/2, ymin := 1/2, zmin := 1/2, xmax := 9/10, ymax := 9/10, zmax := 9/10 }

/-- Naming options for the counterexample of claim C7: simple approach,
empty prefix, suffix "end". -/
def namingOptsSufEnd : NamingOpts :=
  { check_naming := true, naming_approach := 0,
    pfxChars := [], sfxChars := ['e', 'n', 'd'], regexToks := [] }

/-- The path "endX": its base name starts with the empty prefix and contains
"end", but does not end with "end". -/
def pathEndX : List Char := ['e', 'n', 'd', 'X']

/-- A connection-check state: connected, last checked at time 0, empty
logs. -/
def connStateStart : ConnState :=
  { connected := true, lastChecked := 0, connectionLog := [], barLog := [] }

/-! ## Helper lemmas about the log functions -/

theorem pyListRemove_mem {l : List PyVal} {v x : PyVal} (hx : x ∈ l)
    (hne : pyEq x v = false) :
    ∀ {ys : List PyVal}, pyListRemove l v = Except.ok ys → x ∈ ys := by
  induction l with
  | nil => intro ys h; cases hx
  | cons a rest ih =>
    intro ys h
    by_cases ha : pyEq a v = true
    · simp only [pyListRemove, ha, if_true] at h
      injection h with h
      subst h
      rcases List.mem_cons.mp hx with rfl | hx2
      · rw [hne] at ha; cases ha
      · exact hx2
    · simp only [pyListRemove, Bool.eq_false_iff.mpr ha, Bool.false_eq_true,
        if_false] at h
      cases hrec : pyListRemove rest v with
      | error e => rw [hrec] at h; simp [Except.map] at h
      | ok zs =>
          rw [hrec] at h
          simp only [Except.map] at h
          injection h with h
          subst h
          rcases List.mem_cons.mp hx with rfl | hx2
          · exact List.mem_cons_self _ _
          · exact List.mem_cons_of_mem _ (ih hx2 hrec)

theorem update_log_eq (log : List PyVal) (m : String) (t : MessageType) :
    update_log log m t =
      (if (log ++ [logEntry t m]).length > 50 then
        match pyListRemove (log ++ [logEntry t m]) (PyVal.int 0) with
        | Except.ok ys => Except.ok ys
        | Except.error _ => Except.error (log ++ [logEntry t m])
      else Except.ok (log ++ [logEntry t m])) := by
  cases t <;> rfl

theorem update_log_mem {log : List PyVal} {m : String} {t : MessageType}
    {r : List PyVal}
    (h : update_log log m t = Except.ok r ∨ update_log log m t = Except.error r) :
    logEntry t m ∈ r := by
  rw [update_log_eq] at h
  have hmem : logEntry t m ∈ log ++ [logEntry t m] := by simp
  by_cases hlen : (log ++ [logEntry t m]).length > 50
  · rw [if_pos hlen] at h
    cases hrem : pyListRemove (log ++ [logEntry t m]) (PyVal.int 0) with
    | ok ys =>
        rw [hrem] at h
        rcases h with h | h
        · injection h with h
          subst h
          exact pyListRemove_mem hmem (by cases t <;> rfl) hrem
        · simp at h
    | error e =>
        rw [hrem] at h
        rcases h with h | h
        · simp at h
        · injection h with h
          subst h
          exact hmem
  · rw [if_neg hlen] at h
    rcases h with h | h
    · injection h with h
      subst h
      exact hmem
    · simp at h

theorem update_log_ok_of_small {log : List PyVal} {m : String} {t : MessageType}
    (h : log.length < 50) :
    update_log log m t = Except.ok (log ++ [logEntry t m]) := by
  rw [update_log_eq, if_neg]
  simp only [List.length_append, List.length_cons, List.length_nil]
  omega

theorem send_warnings_ok (sev : MessageType) :
    ∀ (ws : List String) (log : List PyVal), log.length + ws.length ≤ 50 →
      send_warnings log ws sev = Except.ok (log ++ ws.map (logEntry sev)) := by
  intro ws
  induction ws with
  | nil => intro log h; simp [send_warnings]
  | cons w rest ih =>
    intro log h
    simp only [List.length_cons] at h
    have hlt : log.length < 50 := by omega
    simp only [send_warnings, update_log_ok_of_small hlt]
    rw [ih (log ++ [logEntry sev w]) (by simp only [List.length_append,
      List.length_cons, List.length_nil]; omega)]
    simp [List.append_assoc]

theorem log_connection_eq (cl : List PyVal) (m : String) :
    log_connection cl m =
      (if (PyVal.str (">> " ++ m) :: cl).length > 50 then
        match pyListRemove (PyVal.str (">> " ++ m) :: cl) (PyVal.int 0) with
        | Except.ok ys => Except.ok ys
        | Except.error _ => Except.error (PyVal.str (">> " ++ m) :: cl)
      else Except.ok (PyVal.str (">> " ++ m) :: cl)) := rfl

theorem log_connection_mem {cl : List PyVal} {m : String} {r : List PyVal}
    (h : log_connection cl m = Except.ok r ∨ log_connection cl m = Except.error r) :
    PyVal.str (">> " ++ m) ∈ r := by
  rw [log_connection_eq] at h
  by_cases hlen : (PyVal.str (">> " ++ m) :: cl).length > 50
  · rw [if_pos hlen] at h
    cases hrem : pyListRemove (PyVal.str (">> " ++ m) :: cl) (PyVal.int 0) with
    | ok ys =>
        rw [hrem] at h
        rcases h with h | h
        · injection h with h
          subst h
          exact pyListRemove_mem (List.mem_cons_self _ _) (by rfl) hrem
        · simp at h
    | error e =>
        rw [hrem] at h
        rcases h with h | h
        · simp at h
        · injection h with h
          subst h
          exact List.mem_cons_self _ _
  · rw [if_neg hlen] at h
    rcases h with h | h
    · injection h with h
      subst h
      exact List.mem_cons_self _ _
    · simp at h

/-! ## Helper lemmas about intercept_save -/

theorem saveDenied_false_of_connAborts {env : SaveEnv}
    (h : p4ConnectAborts env = true) : saveDenied env = false := by
  simp [saveDenied, checksFailedHere, h]

theorem warnSendAborts_false_of_connAborts {env : SaveEnv}
    (h : p4ConnectAborts env = true) : warnSendAborts env = false := by
  simp [warnSendAborts, checksFailedHere, h]

theorem saveDenied_false_of_warnAborts {env : SaveEnv}
    (h : warnSendAborts env = true) : saveDenied env = false := by
  cases hw : warnSendResult env with
  | error l => simp [saveDenied, hw, exceptFailed]
  | ok l =>
      rw [warnSendAborts, hw] at h
      simp [exceptFailed] at h

theorem intercept_save_eq (env : SaveEnv) :
    intercept_save env =
      { result := if !env.connected then Except.ok true
          else if p4ConnectAborts env then Except.error (p4ConnectAbortError env)
          else if warnSendAborts env then Except.error PyError.valueError
          else if saveDenied env then Except.ok false
          else if saveP4Raised env then Except.error PyError.typeError
          else Except.ok true
        checksRan := env.connected && (!(p4ConnectAborts env) && checksExecuted env)
        ranAdd := env.connected && addAttempted env
        ranEdit := env.connected && editAttempted env
        barLog := if !env.connected then env.barLog
          else if p4ConnectAborts env then
            exceptList (update_log env.barLog p4ConnectErrorText MessageType.ERROR)
          else if checksFailedHere env then exceptList (warnSendResult env)
          else env.barLog
        sessTrace := if env.connected then
            p4ConnectTrace env.connOk env.loginOk ++
              p4ReleaseTrace (sessionOpenAfterConnect env)
          else [] } := by
  by_cases hc : env.connected = true
  · by_cases hA : p4ConnectAborts env = true
    · have hd := saveDenied_false_of_connAborts hA
      have hwn := warnSendAborts_false_of_connAborts hA
      have hfh : checksFailedHere env = false := by simp [checksFailedHere, hA]
      have hadd : addAttempted env = false := by simp [addAttempted, hA]
      have hedit : editAttempted env = false := by simp [editAttempted, hA]
      cases hu : update_log env.barLog p4ConnectErrorText MessageType.ERROR with
      | error l =>
          simp [intercept_save, hc, hA, hu, hd, hwn, hfh, hadd, hedit,
            p4ConnectAbortError, exceptList]
      | ok l =>
          simp [intercept_save, hc, hA, hu, hd, hwn, hfh, hadd, hedit,
            p4ConnectAbortError, exceptList]
    · have hA' : p4ConnectAborts env = false := Bool.eq_false_iff.mpr hA
      by_cases hf : (checksExecuted env && !env.checksPassed) = true
      · have hf2 := hf
        simp only [Bool.and_eq_true, Bool.not_eq_true'] at hf2
        obtain ⟨hce, hcp⟩ := hf2
        have hfh : checksFailedHere env = true := by
          simp [checksFailedHere, hA', hce, hcp]
        cases hw : send_warnings env.barLog env.warnings (checkSeverity env.state) with
        | error l =>
            have hwn : warnSendAborts env = true := by
              simp [warnSendAborts, hfh, warnSendResult, hw, exceptFailed]
            have hd := saveDenied_false_of_warnAborts hwn
            have hadd : addAttempted env = false := by simp [addAttempted, hwn]
            have hedit : editAttempted env = false := by simp [editAttempted, hwn]
            simp [intercept_save, hc, hA', hf, hw, hwn, hd, hfh, hadd, hedit,
              warnSendResult, exceptList, hce, hcp]
        | ok l =>
            have hwn : warnSendAborts env = false := by
              simp [warnSendAborts, warnSendResult, hw, exceptFailed]
            by_cases hs : (env.state == CheckType.ERROR) = true
            · have hd : saveDenied env = true := by
                simp [saveDenied, hfh, warnSendResult, hw, exceptFailed, hs]
              have hadd : addAttempted env = false := by simp [addAttempted, hd]
              have hedit : editAttempted env = false := by simp [editAttempted, hd]
              simp [intercept_save, hc, hA', hf, hw, hs, hwn, hd, hfh, hadd,
                hedit, warnSendResult, exceptList, hce, hcp]
            · have hd : saveDenied env = false := by
                simp [saveDenied, Bool.eq_false_iff.mpr hs]
              simp [intercept_save, hc, hA', hf, hw, hs, hwn, hd, hfh,
                warnSendResult, exceptList, hce, hcp]
      · have hf' : (checksExecuted env && !env.checksPassed) = false :=
          Bool.eq_false_iff.mpr hf
        have hfh : checksFailedHere env = false := by
          cases hce : checksExecuted env <;> cases hcp : env.checksPassed <;>
            simp_all [checksFailedHere]
        have hwn : warnSendAborts env = false := by simp [warnSendAborts, hfh]
        have hd : saveDenied env = false := by simp [saveDenied, hfh]
        simp [intercept_save, hc, hA', hf', hfh, hwn, hd]
  · have hc' : env.connected = false := Bool.eq_false_iff.mpr hc
    simp [intercept_save, hc']

/-! ## Claim C1 -/

/-- Claim C1, as stated, is false on the code: in this environment the
handler reports connected, the where query on the saved file's directory
succeeds and the files query raises (the file is not yet in the depot), yet
intercept_save runs neither add nor edit, because the convention checks
failed under CheckType.ERROR and the save was cancelled before the
add-or-edit step. -/
theorem C1_counterexample :
    envErrorFail.connected = true ∧
    inWorkspaceRes envErrorFail = true ∧
    p4ExistsRes envErrorFail = false ∧
    (intercept_save envErrorFail).ranAdd = false ∧
    (intercept_save envErrorFail).ranEdit = false := by
  decide

/-- Claim C1 as amended: for every triggered save while the handler reports
connected, if the save was cancelled by a failing convention check under
Error mode, or the callback aborted beforehand on a Python-level error (the
AttributeError of a failing p4_connect, or the log-overflow ValueError while
logging failed checks), then neither add nor edit is run; otherwise, if the
where query on the saved file's directory succeeds the interceptor runs add
when the files query raises and edit when it succeeds, and if the where
query fails neither is run. -/
theorem C1_add_edit_gated (env : SaveEnv) (hconn : env.connected = true) :
    ((saveDenied env = true ∨ p4ConnectAborts env = true ∨ warnSendAborts env = true) →
      (intercept_save env).ranAdd = false ∧ (intercept_save env).ranEdit = false) ∧
    (saveDenied env = false → p4ConnectAborts env = false → warnSendAborts env = false →
      (inWorkspaceRes env = true →
        (p4ExistsRes env = false →
          (intercept_save env).ranAdd = true ∧ (intercept_save env).ranEdit = false) ∧
        (p4ExistsRes env = true →
          (intercept_save env).ranEdit = true ∧ (intercept_save env).ranAdd = false)) ∧
      (inWorkspaceRes env = false →
        (intercept_save env).ranAdd = false ∧ (intercept_save env).ranEdit = false)) := by
  rw [intercept_save_eq]
  constructor
  · intro hk
    rcases hk with hk | hk | hk <;> simp [addAttempted, editAttempted, hk]
  · intro hd hA hwn
    refine ⟨fun hw => ⟨fun he => ?_, fun he => ?_⟩, fun hw => ?_⟩ <;>
      simp [addAttempted, editAttempted, hconn, *]

/-- Witness for C1_add_edit_gated: with checks disabled, a workspace
directory, an empty bar log and a file not yet in the depot, the add
command is issued. -/
theorem C1_add_edit_gated_witness :
    envNoneAdd.connected = true ∧ saveDenied envNoneAdd = false ∧
    p4ConnectAborts envNoneAdd = false ∧ warnSendAborts envNoneAdd = false ∧
    inWorkspaceRes envNoneAdd = true ∧ p4ExistsRes envNoneAdd = false ∧
    (intercept_save envNoneAdd).ranAdd = true :=
  ⟨by decide, by decide, by decide, by decide, by decide, by decide,
    ((((C1_add_edit_gated envNoneAdd (by decide)).2 (by decide) (by decide)
        (by decide)).1 (by decide)).1 (by decide)).1⟩

/-! ## Claim C2 -/

/-- Claim C2 matches the spec and the code's evident intent, but the code is
wrong on both failure paths.  The only way intercept_save writes False into
ret_code is the Error-mode check cancellation: when the add or edit command
raises P4Exception, the except branch hands the un-joined inst.errors list
to send_to_log and update_log crashes with TypeError (str + list, source
line 1503) before continue_save = False at line 1225, so the callback
aborts with ret_code unwritten instead of denying; and when p4_connect
fails, its handler crashes with AttributeError (self.connect is None,
source lines 1535 and 1653) instead of letting the save continue.  The
theorem proves the denial is exactly the check cancellation and evaluates
both crash paths at concrete environments. -/
theorem C2_denial_only_checks_and_crashes :
    (∀ env : SaveEnv, (intercept_save env).result = Except.ok false ↔
      (env.connected = true ∧ saveDenied env = true)) ∧
    (intercept_save envEditRaises).ranEdit = true ∧
    (intercept_save envEditRaises).result = Except.error PyError.typeError ∧
    envConnectFail.connected = true ∧
    (intercept_save envConnectFail).result = Except.error PyError.attributeError := by
  refine ⟨fun env => ?_, by decide, rfl, by decide, rfl⟩
  rw [intercept_save_eq]
  by_cases hc : env.connected = true
  · by_cases hA : p4ConnectAborts env = true
    · have hd := saveDenied_false_of_connAborts hA
      simp [hc, hA, hd]
    · have hA' := Bool.eq_false_iff.mpr hA
      by_cases hwn : warnSendAborts env = true
      · have hd := saveDenied_false_of_warnAborts hwn
        simp [hc, hA', hwn, hd]
      · have hwn' := Bool.eq_false_iff.mpr hwn
        by_cases hd : saveDenied env = true
        · simp [hc, hA', hwn', hd]
        · have hd' := Bool.eq_false_iff.mpr hd
          by_cases hr : saveP4Raised env = true <;>
            simp [hc, hA', hwn', hd', hr]
  · have hc' := Bool.eq_false_iff.mpr hc
    simp [hc']

/-! ## Claim C4 -/

/-- Claim C4, as stated, is false on the code: in this environment the mode
is Warning and one check fails, but the bar log already holds 50 entries,
so the warning append raises the overflow ValueError and the callback
aborts - the warning is not merely logged, the save does not proceed (the
add-or-edit step is never reached and ret_code is never written). -/
theorem C4_counterexample :
    envWarnOverflow.state = CheckType.WARNING ∧
    envWarnOverflow.checksPassed = false ∧
    (intercept_save envWarnOverflow).checksRan = true ∧
    (intercept_save envWarnOverflow).result = Except.error PyError.valueError ∧
    (intercept_save envWarnOverflow).ranAdd = false ∧
    (intercept_save envWarnOverflow).ranEdit = false :=
  ⟨rfl, rfl, rfl, rfl, rfl, rfl⟩

/-- Claim C4 as amended: the three-state error-handling mode gates the
convention checks.  Under CheckType.NONE the checks are not executed at
all.  Under CheckType.WARNING the checks never deny the save (the callback
never writes False), and when the bar log has room for every warning the
failed checks are appended to it with WARNING severity.  Under
CheckType.ERROR a failed check cancels the save, provided the warning log
writes did not abort the callback first (claim C3's overflow bug). -/
theorem C4_state_gating (env : SaveEnv) (hconn : env.connected = true) :
    (env.state = CheckType.NONE → (intercept_save env).checksRan = false) ∧
    (env.state = CheckType.WARNING →
      (intercept_save env).result ≠ Except.ok false ∧
      ((intercept_save env).checksRan = true → env.checksPassed = false →
        env.barLog.length + env.warnings.length ≤ 50 →
          (intercept_save env).barLog =
            env.barLog ++ env.warnings.map (logEntry MessageType.WARNING))) ∧
    (env.state = CheckType.ERROR → (intercept_save env).checksRan = true →
      env.checksPassed = false → warnSendAborts env = false →
        (intercept_save env).result = Except.ok false) := by
  refine ⟨fun hst => ?_, fun hst => ⟨?_, fun hran hcp hlen => ?_⟩,
    fun hst hran hcp hwn => ?_⟩
  · rw [intercept_save_eq]
    simp [checksExecuted, hst]
  · have hd : saveDenied env = false := by simp [saveDenied, hst]
    rw [intercept_save_eq]
    simp only [hconn, Bool.not_true, Bool.false_eq_true, if_false, hd]
    split_ifs <;> simp
  · rw [intercept_save_eq] at hran ⊢
    simp only [hconn, Bool.true_and, Bool.and_eq_true, Bool.not_eq_true'] at hran
    obtain ⟨hA, hce⟩ := hran
    have hfh : checksFailedHere env = true := by
      simp [checksFailedHere, hA, hce, hcp]
    have hsev : checkSeverity env.state = MessageType.WARNING := by
      simp [checkSeverity, hst]
    have hwr : warnSendResult env =
        Except.ok (env.barLog ++ env.warnings.map (logEntry MessageType.WARNING)) := by
      rw [warnSendResult, hsev]
      exact send_warnings_ok MessageType.WARNING env.warnings env.barLog hlen
    simp [hconn, hA, hfh, hwr, exceptList]
  · rw [intercept_save_eq] at hran ⊢
    simp only [hconn, Bool.true_and, Bool.and_eq_true, Bool.not_eq_true'] at hran
    obtain ⟨hA, hce⟩ := hran
    have hfh : checksFailedHere env = true := by
      simp [checksFailedHere, hA, hce, hcp]
    have hef : exceptFailed (warnSendResult env) = false := by
      have h2 := hwn
      rw [warnSendAborts, hfh] at h2
      simpa using h2
    have hd : saveDenied env = true := by
      simp [saveDenied, hfh, hef, hst]
    simp [hconn, hA, hwn, hd]

/-- Witness for C4_state_gating: under Warning mode with two failing checks,
an empty bar log and the edit command succeeding, the callback does not
deny the save and both warnings land in the bar log with WARNING
severity. -/
theorem C4_state_gating_witness :
    (intercept_save envWarningEdit).result ≠ Except.ok false ∧
    (intercept_save envWarningEdit).barLog =
      envWarningEdit.barLog ++
        envWarningEdit.warnings.map (logEntry MessageType.WARNING) :=
  ⟨((C4_state_gating envWarningEdit (by decide)).2.1 (by decide)).1,
   ((C4_state_gating envWarningEdit (by decide)).2.1 (by decide)).2 (by decide)
     (by decide) (by decide)⟩

/-! ## Claim C3 -/

/-- Claim C3 is right about the intent but the code is wrong: appending the
51st message fails.  Both Connector.log_connection and P4Bar.update_log
call self.log.remove(0) to evict the oldest entry once the list exceeds 50,
but remove(0) removes the first element equal to the int 0 and the log holds
only strings, so the call raises ValueError instead of evicting.  Below, a
log already holding 50 entries errors on the next append in both functions,
while the same append on a 49-entry log succeeds. -/
theorem C3_overflow_raises :
    log_connection (List.replicate 50 (PyVal.str ">> m")) "next" =
      Except.error (PyVal.str ">> next" :: List.replicate 50 (PyVal.str ">> m")) ∧
    update_log (List.replicate 50 (PyVal.str ">> m")) "next" MessageType.LOG =
      Except.error (List.replicate 50 (PyVal.str ">> m") ++ [PyVal.str ">> [LOG] next"]) ∧
    log_connection (List.replicate 49 (PyVal.str ">> m")) "next" =
      Except.ok (PyVal.str ">> next" :: List.replicate 49 (PyVal.str ">> m")) ∧
    update_log (List.replicate 49 (PyVal.str ">> m")) "next" MessageType.LOG =
      Except.ok (List.replicate 49 (PyVal.str ">> m") ++ [PyVal.str ">> [LOG] next"]) :=
  ⟨rfl, rfl, rfl, rfl⟩

/-! ## Claim C9 -/

/-- Claim C9: the options map of the save module always contains every
default key: the initial map has them all, and both loading stored
preferences (dict.update with the stored map) and setting a single option
preserve the presence of every default key. -/
theorem C9_default_keys_invariant :
    hasDefaultKeys initOptions ∧
    (∀ opts stored : SaveOptions,
      hasDefaultKeys opts → hasDefaultKeys (load_pref_options opts stored)) ∧
    (∀ (opts : SaveOptions) (var : String) (value : PyVal),
      hasDefaultKeys opts → hasDefaultKeys (set_variable opts var value)) := by
  refine ⟨by decide, fun opts stored h kv hkv => ?_, fun opts var value h kv hkv => ?_⟩
  · unfold load_pref_options dictUpdate
    cases hs : stored kv.1 with
    | some v => simp
    | none => simpa using h kv hkv
  · unfold set_variable
    by_cases hv : kv.1 == var
    · simp [hv]
    · simpa [hv] using h kv hkv

/-- Witness for C9_default_keys_invariant: starting from the default
options, loading an empty stored map and then setting one option leaves a
map that still has every default key. -/
theorem C9_default_keys_invariant_witness :
    hasDefaultKeys
      (set_variable (load_pref_options initOptions (fun _ => none))
        "check_naming" (PyVal.bool false)) :=
  C9_default_keys_invariant.2.2 _ _ _
    (C9_default_keys_invariant.2.1 _ _ (by decide))

/-! ## Claim C10 -/

/-- Claim C10: set_pref followed by get_pref on the same class and variable
keys returns the stored value; get_pref on any other key pair is unchanged
by the set_pref; and get_pref on a handler with no stored preferences
returns None. -/
theorem C10_pref_roundtrip :
    (∀ (h : PreferenceHandler) (c k : String) (v : PyVal),
      get_pref (set_pref h c k v) c k = some v) ∧
    (∀ (h : PreferenceHandler) (c k : String) (v : PyVal) (c2 k2 : String),
      (c2, k2) ≠ (c, k) →
        get_pref (set_pref h c k v) c2 k2 = get_pref h c2 k2) ∧
    (∀ c k : String, get_pref emptyPrefHandler c k = none) := by
  refine ⟨fun h c k v => ?_, fun h c k v c2 k2 hne => ?_, fun c k => rfl⟩
  · simp [get_pref, set_pref]
  · by_cases hc : c2 = c
    · subst hc
      have hk2 : k2 ≠ k := fun hkk => hne (by simp [hkk])
      cases hp : h.preferences c2 with
      | none =>
          simp [get_pref, set_pref, hp, hk2]
      | some d =>
          simp [get_pref, set_pref, hp, hk2]
    · simp [get_pref, set_pref, hc]

/-- Witness for C10_pref_roundtrip: storing the port for the connector
class leaves the saving module's state preference untouched. -/
theorem C10_pref_roundtrip_witness :
    get_pref (set_pref emptyPrefHandler "CONNECTOR" "P4PORT" (PyVal.str "1666"))
        "CONNECTOR" "P4PORT" = some (PyVal.str "1666") ∧
    get_pref (set_pref emptyPrefHandler "CONNECTOR" "P4PORT" (PyVal.str "1666"))
        "CUSTOM_SAVE" "state" =
      get_pref emptyPrefHandler "CUSTOM_SAVE" "state" :=
  ⟨C10_pref_roundtrip.1 emptyPrefHandler "CONNECTOR" "P4PORT" (PyVal.str "1666"),
    C10_pref_roundtrip.2.1 emptyPrefHandler "CONNECTOR" "P4PORT" (PyVal.str "1666")
      "CUSTOM_SAVE" "state" (by decide)⟩

/-! ## Claim C5 -/

theorem check_connection_not_ran (s : ConnState) (t : Nat) (r : Bool)
    (hg : ¬(s.connected && decide (10 < t - s.lastChecked)) = true) :
    check_connection s t r = (s, false) := by
  simp only [check_connection, hg, if_false, Bool.false_eq_true, ite_false]

theorem check_connection_ran (s : ConnState) (t : Nat) (r : Bool)
    (hg : (s.connected && decide (10 < t - s.lastChecked)) = true) :
    (check_connection s t r).2 = true ∧ (check_connection s t r).1.lastChecked = t := by
  cases r <;> simp [check_connection, hg]

theorem runIdleFirings_chain (s : ConnState) (firings : List (Nat × Bool)) :
    List.Chain (fun a b => a + 10 < b) s.lastChecked (runIdleFirings s firings).2 := by
  induction firings generalizing s with
  | nil => exact List.Chain.nil
  | cons f rest ih =>
    obtain ⟨t, r⟩ := f
    simp only [runIdleFirings]
    by_cases hg : (s.connected && decide (10 < t - s.lastChecked)) = true
    · obtain ⟨h2, hlast⟩ := check_connection_ran s t r hg
      rw [h2]
      simp only [if_true]
      refine List.Chain.cons ?_ ?_
      · simp only [Bool.and_eq_true] at hg
        have h10 : 10 < t - s.lastChecked := of_decide_eq_true hg.2
        omega
      · have hc := ih (check_connection s t r).1
        rwa [hlast] at hc
    · rw [check_connection_not_ran s t r hg]
      simp only [Bool.false_eq_true, if_false, ite_false]
      exact ih s

theorem check_connection_logs_mem_connection (cl bl : List PyVal) :
    PyVal.str (">> " ++ connectionLostText) ∈ (check_connection_logs cl bl).1 := by
  cases hl : log_connection cl connectionLostText with
  | error l =>
      simp only [check_connection_logs, hl]
      exact log_connection_mem (Or.inr hl)
  | ok l =>
      simp only [check_connection_logs, hl]
      exact log_connection_mem (Or.inl hl)

theorem check_connection_logs_mem_bar (cl bl : List PyVal)
    (hlen : cl.length < 50) :
    logEntry MessageType.WARNING connectionLostText ∈ (check_connection_logs cl bl).2 := by
  have hok : log_connection cl connectionLostText =
      Except.ok (PyVal.str (">> " ++ connectionLostText) :: cl) := by
    rw [log_connection_eq, if_neg]
    simp only [List.length_cons]
    omega
  simp only [check_connection_logs, hok]
  cases hu : update_log bl connectionLostText MessageType.WARNING with
  | error l =>
      simp only [hu, exceptList]
      exact update_log_mem (Or.inr hu)
  | ok l =>
      simp only [hu, exceptList]
      exact update_log_mem (Or.inl hu)

/-- Claim C5: over any sequence of idle firings the connection
re-validation runs at most once per 10-second interval (the times at which
it runs form a chain with gaps above 10 seconds, starting from the stored
last-checked time), and whenever the re-validation raises, the connected
flag is downgraded to not-connected before any logging, and the warning is
inserted into the connection log (it reaches the bar log too when the
connection log held fewer than 50 entries; at 50 the connection-log write
raises the overflow ValueError of claim C3 right after its insert and the
bar write is skipped). -/
theorem C5_throttle_and_downgrade :
    (∀ (s : ConnState) (firings : List (Nat × Bool)),
      List.Chain (fun a b => a + 10 < b) s.lastChecked (runIdleFirings s firings).2) ∧
    (∀ (s : ConnState) (now : Nat),
      (check_connection s now true).2 = true →
        (check_connection s now true).1.connected = false ∧
        PyVal.str (">> " ++ connectionLostText) ∈
          (check_connection s now true).1.connectionLog ∧
        (s.connectionLog.length < 50 →
          logEntry MessageType.WARNING connectionLostText ∈
            (check_connection s now true).1.barLog)) := by
  refine ⟨runIdleFirings_chain, fun s now h => ?_⟩
  by_cases hg : (s.connected && decide (10 < now - s.lastChecked)) = true
  · have hstep : check_connection s now true =
        ({ connected := false, lastChecked := now,
           connectionLog := (check_connection_logs s.connectionLog s.barLog).1,
           barLog := (check_connection_logs s.connectionLog s.barLog).2 }, true) := by
      simp [check_connection, hg]
    rw [hstep]
    exact ⟨rfl, check_connection_logs_mem_connection s.connectionLog s.barLog,
      fun hlen => check_connection_logs_mem_bar s.connectionLog s.barLog hlen⟩
  · rw [check_connection_not_ran s now true hg] at h
    exact absurd h (by simp)

/-- Witness for C5_throttle_and_downgrade: from a connected state last
checked at time 0 with empty logs, a failing re-validation at time 12
downgrades the flag and writes the warning to both logs. -/
theorem C5_throttle_and_downgrade_witness :
    (check_connection connStateStart 12 true).1.connected = false ∧
    PyVal.str (">> " ++ connectionLostText) ∈
      (check_connection connStateStart 12 true).1.connectionLog ∧
    logEntry MessageType.WARNING connectionLostText ∈
      (check_connection connStateStart 12 true).1.barLog :=
  ⟨(C5_throttle_and_downgrade.2 connStateStart 12 (by rfl)).1,
   (C5_throttle_and_downgrade.2 connStateStart 12 (by rfl)).2.1,
   (C5_throttle_and_downgrade.2 connStateStart 12 (by rfl)).2.2 (by decide)⟩

/-! ## Claim C6 -/

theorem check_centered_fst (success : Bool) (warning : List String) (boxes : List BBox) :
    (check_centered success warning boxes).1 = (success && boxes.all zeroCentered) := by
  induction boxes generalizing success warning with
  | nil => simp [check_centered]
  | cons b rest ih =>
    by_cases hb : zeroCentered b = true
    · simp [check_centered, hb, ih]
    · simp [check_centered, Bool.eq_false_iff.mpr hb, ih]

/-- Claim C6, as stated, is false on the code: the mesh whose bounding box
runs from (1/2, 1/2, 1/2) to (9/10, 9/10, 9/10) does not contain the scene
center, yet the centered check passes for it. -/
theorem C6_counterexample :
    (check_centered true [] [boxOffCenter]).1 = true ∧ ¬ containsCenter boxOffCenter := by
  constructor
  · simp only [check_centered_fst, List.all_cons, List.all_nil, Bool.and_true, Bool.true_and,
      zeroCentered, boxOffCenter, Bool.and_eq_true, decide_eq_true_eq]
    norm_num
  · unfold containsCenter boxOffCenter
    norm_num

/-- Claim C6 as amended: the per-mesh centered test passes exactly when the
mesh's world bounding box overlaps the open tolerance cube (-1, 1) on every
axis - its minimum lies below 1 and its maximum above -1 - and the overall
check passes exactly when every mesh passes that test, failing exactly when
some mesh fails it.  (A box containing the center always passes, but the
converse fails, as the counterexample shows.) -/
theorem C6_centered_tolerance :
    (∀ b : BBox, zeroCentered b = true ↔
      ((b.xmin < 1 ∧ -1 < b.xmax) ∧ (b.ymin < 1 ∧ -1 < b.ymax) ∧
        (b.zmin < 1 ∧ -1 < b.zmax))) ∧
    (∀ boxes : List BBox,
      ((check_centered true [] boxes).1 = true ↔ ∀ b ∈ boxes, zeroCentered b = true) ∧
      ((check_centered true [] boxes).1 = false ↔ ∃ b ∈ boxes, zeroCentered b = false)) := by
  constructor
  · intro b
    simp [zeroCentered, Bool.and_eq_true, and_assoc]
  · intro boxes
    constructor
    · rw [check_centered_fst]
      simp [List.all_eq_true]
    · rw [check_centered_fst]
      simp only [Bool.true_and]
      constructor
      · intro h
        rcases List.all_eq_false.mp h with ⟨b, hb, hfalse⟩
        exact ⟨b, hb, Bool.eq_false_iff.mpr hfalse⟩
      · intro ⟨b, hb, hfalse⟩
        exact List.all_eq_false.mpr ⟨b, hb, Bool.eq_false_iff.mp hfalse⟩

/-! ## Claim C8 -/

/-- Claim C8: every discrete Perforce operation wraps its commands in a
connect / run / disconnect bracket, on the error paths included.  The
session trace produced by intercept_save coincides with its operation
trace, and every modelled operation - the periodic connection check, the
save interception, the Connector connect flow, the workspace listings and
the changelist / file-history fetches - starts and ends with the session
closed and never opens a session while one is open, for every outcome of
the underlying Perforce calls. -/
theorem C8_session_discipline :
    (∀ env : SaveEnv,
      (intercept_save env).sessTrace =
        opInterceptSaveTrace env.connected env.connOk env.loginOk) ∧
    (∀ connected elapsed connOk loginOk1 loginOk2 : Bool,
      sessRun false (opCheckConnectionTrace connected elapsed connOk loginOk1 loginOk2) = false ∧
      noNestedConn false (opCheckConnectionTrace connected elapsed connOk loginOk1 loginOk2) = true) ∧
    (∀ connected connOk loginOk : Bool,
      sessRun false (opInterceptSaveTrace connected connOk loginOk) = false ∧
      noNestedConn false (opInterceptSaveTrace connected connOk loginOk) = true) ∧
    (∀ connOk : Bool,
      (sessRun false (opConnectorConnectTrace connOk) = false ∧
       noNestedConn false (opConnectorConnectTrace connOk) = true) ∧
      (sessRun false (opListWorkspacesTrace connOk) = false ∧
       noNestedConn false (opListWorkspacesTrace connOk) = true)) ∧
    (∀ connected connOk loginOk : Bool,
      sessRun false (opModuleFetchTrace connected connOk loginOk) = false ∧
      noNestedConn false (opModuleFetchTrace connected connOk loginOk) = true) := by
  refine ⟨fun env => ?_, by decide, by decide, by decide, by decide⟩
  rw [intercept_save_eq]
  by_cases hc : env.connected = true
  · simp [opInterceptSaveTrace, sessionOpenAfterConnect, hc]
  · simp [opInterceptSaveTrace, Bool.eq_false_iff.mpr hc]

/-! ## Claim C7 -/

theorem rmatch_lits_append (p : List Char) (ts : List RTok) (s : List Char) :
    rmatchFrom (lits p ++ ts) s = true ↔
      ∃ s2, s = p ++ s2 ∧ rmatchFrom ts s2 = true := by
  induction p generalizing s with
  | nil => simp [lits]
  | cons c p ih =>
    cases s with
    | nil =>
      constructor
      · intro h
        exact absurd h (by simp [lits, rmatchFrom])
      · rintro ⟨s2, hs, _⟩
        exact absurd hs (by simp)
    | cons x xs =>
      have hl : lits (c :: p) ++ ts = RTok.lit c :: (lits p ++ ts) := rfl
      rw [hl]
      show (x == c && rmatchFrom (lits p ++ ts) xs) = true ↔ _
      rw [Bool.and_eq_true, beq_iff_eq, ih]
      constructor
      · rintro ⟨rfl, s2, rfl, hr⟩
        exact ⟨s2, rfl, hr⟩
      · rintro ⟨s2, hs, hr⟩
        rw [List.cons_append] at hs
        injection hs with h1 h2
        exact ⟨h1, s2, h2, hr⟩

theorem rmatch_dotStar (ts : List RTok) (s : List Char) :
    rmatchFrom (RTok.dotStar :: ts) s = true ↔
      ∃ u s2, s = u ++ s2 ∧ rmatchFrom ts s2 = true := by
  simp only [rmatchFrom, List.any_eq_true]
  constructor
  · rintro ⟨s2, hmem, hr⟩
    obtain ⟨u, hu⟩ := (List.mem_tails _ _).mp hmem
    exact ⟨u, s2, hu.symm, hr⟩
  · rintro ⟨u, s2, rfl, hr⟩
    exact ⟨s2, (List.mem_tails _ _).mpr ⟨u, rfl⟩, hr⟩

theorem rmatch_lits (q : List Char) (s : List Char) :
    rmatchFrom (lits q) s = true ↔ ∃ v, s = q ++ v := by
  have h := rmatch_lits_append q [] s
  rw [List.append_nil] at h
  rw [h]
  simp [rmatchFrom]

theorem rmatch_simple (p q s : List Char) :
    rmatchFrom (lits p ++ [RTok.dotStar] ++ lits q) s = true ↔
      ∃ u v, s = p ++ u ++ q ++ v := by
  rw [List.append_assoc, rmatch_lits_append]
  simp only [List.singleton_append]
  constructor
  · rintro ⟨s2, rfl, h2⟩
    rcases (rmatch_dotStar _ _).mp h2 with ⟨u, s3, rfl, h3⟩
    rcases (rmatch_lits _ _).mp h3 with ⟨v, rfl⟩
    exact ⟨u, v, by simp [List.append_assoc]⟩
  · rintro ⟨u, v, rfl⟩
    refine ⟨u ++ (q ++ v), by simp [List.append_assoc], ?_⟩
    exact (rmatch_dotStar _ _).mpr
      ⟨u, q ++ v, rfl, (rmatch_lits _ _).mpr ⟨v, rfl⟩⟩

theorem check_naming_fst (o : NamingOpts) (path : List Char)
    (hc : o.check_naming = true) :
    (check_naming o path).1 =
      (rmatchFrom (namingPattern o) (basename path) ||
        rmatchFrom (namingPattern o) ((splitext (basename path)).1)) := by
  cases h1 : rmatchFrom (namingPattern o) (basename path) <;>
    cases h2 : rmatchFrom (namingPattern o) ((splitext (basename path)).1) <;>
      simp [check_naming, hc, h1, h2]

/-- Claim C7, as stated, is false on the code: with the simple approach,
empty prefix and suffix "end", the file "endX" passes the naming check even
though its base name does not end with the suffix, because re.match anchors
the built pattern only at the start of the name. -/
theorem C7_counterexample :
    (check_naming namingOptsSufEnd pathEndX).1 = true ∧
    namingOptsSufEnd.pfxChars.isPrefixOf (basename pathEndX) = true ∧
    namingOptsSufEnd.sfxChars.isSuffixOf (basename pathEndX) = false ∧
    namingOptsSufEnd.sfxChars.isSuffixOf ((splitext (basename pathEndX)).1) = false := by
  decide

/-- Claim C7 as amended: the naming check is a pure predicate over the file
path.  With the simple approach (naming_approach not 1) it passes exactly
when the base name - with its extension, or with the extension stripped -
starts with the literal prefix and contains the literal suffix somewhere
after it (the built pattern is anchored at the start only, so the name need
not end with the suffix).  With the regex approach it passes exactly when
the user's regex matches one of the two name variants from the start. -/
theorem C7_naming_characterization (o : NamingOpts) (path : List Char)
    (hcheck : o.check_naming = true) :
    (o.naming_approach ≠ 1 →
      ((check_naming o path).1 = true ↔
        (∃ u v, basename path = o.pfxChars ++ u ++ o.sfxChars ++ v) ∨
        (∃ u v, (splitext (basename path)).1 = o.pfxChars ++ u ++ o.sfxChars ++ v))) ∧
    (o.naming_approach = 1 →
      ((check_naming o path).1 = true ↔
        (rmatchFrom o.regexToks (basename path) = true ∨
          rmatchFrom o.regexToks ((splitext (basename path)).1) = true))) := by
  constructor
  · intro ha
    have hp : namingPattern o = lits o.pfxChars ++ [RTok.dotStar] ++ lits o.sfxChars := by
      simp [namingPattern, ha]
    rw [check_naming_fst o path hcheck, hp, Bool.or_eq_true, rmatch_simple, rmatch_simple]
  · intro ha
    have hp : namingPattern o = o.regexToks := by
      simp [namingPattern, ha]
    rw [check_naming_fst o path hcheck, hp, Bool.or_eq_true]

/-- Witness for C7_naming_characterization: the simple approach with suffix
"end" on the file "Xend", whose base name does end with the suffix. -/
theorem C7_naming_characterization_witness :
    (check_naming namingOptsSufEnd ['X', 'e', 'n', 'd']).1 = true ↔
      ((∃ u v, basename ['X', 'e', 'n', 'd'] =
          namingOptsSufEnd.pfxChars ++ u ++ namingOptsSufEnd.sfxChars ++ v) ∨
       (∃ u v, (splitext (basename ['X', 'e', 'n', 'd'])).1 =
          namingOptsSufEnd.pfxChars ++ u ++ namingOptsSufEnd.sfxChars ++ v)) :=
  (C7_naming_characterization namingOptsSufEnd ['X', 'e', 'n', 'd'] (by decide)).1
    (by decide)
